import Mathlib

/-!
Verification development for the `docExtractor` repository
(`amplify/functions/pdf-processor/handler.py`).

The Python source is shallowly embedded below.  Python strings are modelled
as `List Char`, byte strings as `List Nat` (each entry < 256 in practice),
Python values produced by `json.loads` as the inductive `PyVal`, and the
Bedrock `converse` inference capability as an oracle
`Nat → Except (List Char) (List Char)` giving, for the n-th call issued,
either the text of the first content block of the response (`.ok`) or the
message of the exception the call raised (`.error`).  Library routines the
handler relies on (`base64.b64decode`, `bytes.decode`, `json.loads`) are
modelled by executable Lean functions mirroring their observable behaviour
on the inputs this program feeds them (error-message texts are abbreviated;
no claim depends on them).
-/

namespace DocExtractor

/-- Characters that are awkward to write literally under the project style
rules: opening brace. -/
def lbrace : Char := Char.ofNat 123

/-- Closing brace. -/
def rbrace : Char := Char.ofNat 125

/-- Double quote. -/
def qmark : Char := Char.ofNat 34

/-- Backslash. -/
def bslash : Char := Char.ofNat 92

/-- Single quote. -/
def squote : Char := Char.ofNat 39

/-- Model of a Python value as produced by `json.loads` (and of the dicts
the handler itself builds): strings, ints, bools, `None`, lists and dicts
with string keys. -/
inductive PyVal where
  | str (s : List Char)
  | num (n : Int)
  | bool (b : Bool)
  | null
  | list (xs : List PyVal)
  | dict (kvs : List (List Char × PyVal))

/-- Is the value a Python dict? -/
def isDict : PyVal → Bool
  | .dict _ => true
  | _ => false

/-- `d.get(k, default)` on a Python dict, modelling that `json.loads`
keeps the last of duplicate keys: the rightmost binding wins. -/
def dictGet (kvs : List (List Char × PyVal)) (k : List Char) (d : PyVal) : PyVal :=
  match kvs.reverse.find? (fun kv => kv.1 == k) with
  | some kv => kv.2
  | none => d

/-- `k in d` for a Python dict-valued `PyVal` (`false` on non-dicts). -/
def hasKey (v : PyVal) (k : List Char) : Bool :=
  match v with
  | .dict kvs => kvs.any (fun kv => kv.1 == k)
  | _ => false

/-- Python truthiness (`if not x`) for the values that can appear here. -/
def pyTruthy : PyVal → Bool
  | .str s => !s.isEmpty
  | .num n => decide (n ≠ 0)
  | .bool b => b
  | .null => false
  | .list xs => !xs.isEmpty
  | .dict kvs => !kvs.isEmpty

/-- `type(x).__name__` for the modelled Python values. -/
def pyTypeName : PyVal → List Char
  | .str _ => ("str").data
  | .num _ => ("int").data
  | .bool _ => ("bool").data
  | .null => ("NoneType").data
  | .list _ => ("list").data
  | .dict _ => ("dict").data

/-! ### base64 (model of `base64.b64decode`)

Python's `b64decode` (with `validate=False`, the default used by the
handler) first discards every character that is neither in the base64
alphabet nor `=`, then requires the remaining length to be a multiple of
four, and decodes 6-bit groups.  Error messages are abbreviated; the
handler only ever embeds them inside larger diagnostic strings. -/

/-- Value of a base64 alphabet character, `none` for anything else. -/
def b64Val (c : Char) : Option Nat :=
  if 'A' ≤ c ∧ c ≤ 'Z' then some (c.toNat - 65)
  else if 'a' ≤ c ∧ c ≤ 'z' then some (c.toNat - 97 + 26)
  else if '0' ≤ c ∧ c ≤ '9' then some (c.toNat - 48 + 52)
  else if c = '+' then some 62
  else if c = '/' then some 63
  else none

/-- Decode a final group of 2, 3 or 4 six-bit values into bytes. -/
def b64Group : List Nat → List Nat
  | [a, b] => [a * 4 + b / 16]
  | [a, b, c] => [a * 4 + b / 16, (b % 16) * 16 + c / 4]
  | [a, b, c, d] => [a * 4 + b / 16, (b % 16) * 16 + c / 4, (c % 4) * 64 + d]
  | _ => []

/-- Decode a list of six-bit values (length ≡ 0, 2 or 3 mod 4). -/
def b64DecodeCore : List Nat → List Nat
  | a :: b :: c :: d :: rest => b64Group [a, b, c, d] ++ b64DecodeCore rest
  | rest => b64Group rest

/-- Model of `base64.b64decode` on a Python string: `.ok bytes` or
`.error message` when the call raises `binascii.Error`. -/
def pyB64Decode (s : List Char) : Except (List Char) (List Nat) :=
  let filtered := s.filter (fun c => (b64Val c).isSome || c = '=')
  if filtered.length % 4 ≠ 0 then .error ("Incorrect padding").data
  else
    let dataChars := filtered.takeWhile (fun c => c ≠ '=')
    if dataChars.length % 4 = 1 then .error ("Invalid base64-encoded string").data
    else .ok (b64DecodeCore (dataChars.filterMap b64Val))

/-! ### UTF-8 decoding (models of `bytes.decode('utf-8')`, strict and
`errors='ignore'`) -/

/-- Is the byte a UTF-8 continuation byte? -/
def isContByte (b : Nat) : Bool := 128 ≤ b && b ≤ 191

/-- Decode one UTF-8 scalar from the front of a byte list; `none` when the
leading byte does not begin a valid sequence. -/
def utf8Step : List Nat → Option (Char × List Nat)
  | [] => none
  | b :: rest =>
    if b < 128 then some (Char.ofNat b, rest)
    else if 194 ≤ b && b ≤ 223 then
      match rest with
      | c :: r => if isContByte c then some (Char.ofNat ((b - 192) * 64 + (c - 128)), r) else none
      | [] => none
    else if 224 ≤ b && b ≤ 239 then
      match rest with
      | c :: d :: r =>
        let lo := if b = 224 then 160 else 128
        let hi := if b = 237 then 159 else 191
        if (lo ≤ c && c ≤ hi) && isContByte d then
          some (Char.ofNat ((b - 224) * 4096 + (c - 128) * 64 + (d - 128)), r)
        else none
      | _ => none
    else if 240 ≤ b && b ≤ 244 then
      match rest with
      | c :: d :: e :: r =>
        let lo := if b = 240 then 144 else 128
        let hi := if b = 244 then 143 else 191
        if ((lo ≤ c && c ≤ hi) && isContByte d) && isContByte e then
          some (Char.ofNat (((b - 240) * 262144 + (c - 128) * 4096) + (d - 128) * 64 + (e - 128)), r)
        else none
      | _ => none
    else none

/-- Fuel-indexed worker for `utf8DecodeIgnore`; each step consumes at least
one byte, so `length` fuel suffices. -/
def utf8DecodeIgnoreF : Nat → List Nat → List Char
  | 0, _ => []
  | _, [] => []
  | f + 1, b :: r =>
    match utf8Step (b :: r) with
    | some (ch, rest) => ch :: utf8DecodeIgnoreF f rest
    | none => utf8DecodeIgnoreF f r

/-- Model of `bytes.decode('utf-8', errors='ignore')`: undecodable bytes
are skipped. -/
def utf8DecodeIgnore (bs : List Nat) : List Char := utf8DecodeIgnoreF bs.length bs

/-- Fuel-indexed worker for `utf8DecodeStrict`. -/
def utf8DecodeStrictF : Nat → List Nat → Except (List Char) (List Char)
  | 0, _ => .error ("decode error").data
  | _, [] => .ok []
  | f + 1, b :: r =>
    match utf8Step (b :: r) with
    | some (ch, rest) => (utf8DecodeStrictF f rest).map (fun cs => ch :: cs)
    | none => .error ("invalid utf-8 sequence").data

/-- Model of strict `bytes.decode('utf-8')`: `.error` when the call raises
`UnicodeDecodeError`. -/
def utf8DecodeStrict (bs : List Nat) : Except (List Char) (List Char) :=
  utf8DecodeStrictF bs.length bs

/-! ### JSON (model of `json.loads`)

A fuel-indexed recursive-descent parser for the JSON grammar accepted by
Python's `json.loads` (strict mode): objects, arrays, strings with the
standard escapes, numbers, `true`, `false`, `null`.  Error messages are
abbreviated (no line/column information); the handler only embeds them in
larger diagnostic strings.  Numbers keep their integer part only — no
claim inspects numeric values. -/

/-- JSON whitespace. -/
def jsonWs (c : Char) : Bool := c = ' ' || c = '\t' || c = '\n' || c = '\x0d'

/-- Drop leading JSON whitespace. -/
def skipWs (s : List Char) : List Char := s.dropWhile jsonWs

/-- Decimal digit test. -/
def isJsonDigit (c : Char) : Bool := '0' ≤ c && c ≤ '9'

/-- Hexadecimal digit value. -/
def hexVal (c : Char) : Option Nat :=
  if '0' ≤ c ∧ c ≤ '9' then some (c.toNat - 48)
  else if 'a' ≤ c ∧ c ≤ 'f' then some (c.toNat - 97 + 10)
  else if 'A' ≤ c ∧ c ≤ 'F' then some (c.toNat - 65 + 10)
  else none

/-- Parse four hex digits (the payload of a `\u` escape). -/
def parseHex4 : List Char → Option (Nat × List Char)
  | a :: b :: c :: d :: r =>
    match hexVal a, hexVal b, hexVal c, hexVal d with
    | some va, some vb, some vc, some vd => some (((va * 16 + vb) * 16 + vc) * 16 + vd, r)
    | _, _, _, _ => none
  | _ => none

/-- Parse the body of a JSON string (after the opening quote), returning
the decoded characters and the input after the closing quote. -/
def parseStrBody : Nat → List Char → Option (List Char × List Char)
  | 0, _ => none
  | _, [] => none
  | f + 1, c :: r =>
    if c = qmark then some ([], r)
    else if c = bslash then
      match r with
      | e :: r2 =>
        let esc : Option (Char × List Char) :=
          if e = qmark then some (qmark, r2)
          else if e = bslash then some (bslash, r2)
          else if e = '/' then some ('/', r2)
          else if e = 'b' then some (Char.ofNat 8, r2)
          else if e = 'f' then some (Char.ofNat 12, r2)
          else if e = 'n' then some ('\n', r2)
          else if e = 'r' then some (Char.ofNat 13, r2)
          else if e = 't' then some ('\t', r2)
          else if e = 'u' then (parseHex4 r2).map (fun p => (Char.ofNat p.1, p.2))
          else none
        match esc with
        | some (ch, r3) => (parseStrBody f r3).map (fun p => (ch :: p.1, p.2))
        | none => none
      | [] => none
    else if c.toNat < 32 then none
    else (parseStrBody f r).map (fun p => (c :: p.1, p.2))

/-- Digits to a natural number. -/
def digitsToNat (ds : List Char) : Nat := ds.foldl (fun a c => a * 10 + (c.toNat - 48)) 0

/-- Consume an optional JSON fraction part. -/
def parseFracPart : List Char → Option (List Char)
  | '.' :: r =>
    let fs := r.takeWhile isJsonDigit
    if fs = [] then none else some (r.drop fs.length)
  | s => some s

/-- Consume an optional JSON exponent part. -/
def parseExpPart : List Char → Option (List Char)
  | [] => some []
  | c :: r =>
    if c = 'e' || c = 'E' then
      let r2 := match r with
        | s :: r3 => if s = '+' || s = '-' then r3 else s :: r3
        | [] => []
      let es := r2.takeWhile isJsonDigit
      if es = [] then none else some (r2.drop es.length)
    else some (c :: r)

/-- Parse a JSON number (keeping only the integer part as the value). -/
def parseNum (s : List Char) : Option (PyVal × List Char) :=
  let p : Bool × List Char := match s with
    | '-' :: r => (true, r)
    | _ => (false, s)
  let ds := p.2.takeWhile isJsonDigit
  if ds = [] then none
  else
    match parseFracPart (p.2.drop ds.length) with
    | none => none
    | some s3 =>
      match parseExpPart s3 with
      | none => none
      | some s4 =>
        let n : Int := Int.ofNat (digitsToNat ds)
        some (.num (if p.1 then -n else n), s4)

mutual

/-- Parse one JSON value from the front of the input. -/
def parseVal : Nat → List Char → Except (List Char) (PyVal × List Char)
  | 0, _ => .error ("input too deep").data
  | f + 1, s =>
    match skipWs s with
    | [] => .error ("Expecting value").data
    | c :: r =>
      if c = qmark then
        match parseStrBody f r with
        | some (cs, rest) => .ok (.str cs, rest)
        | none => .error ("Unterminated string").data
      else if c = lbrace then parseObjStart f r
      else if c = '[' then parseArrStart f r
      else if c = 't' then
        match r with
        | 'r' :: 'u' :: 'e' :: rest => .ok (.bool true, rest)
        | _ => .error ("Expecting value").data
      else if c = 'f' then
        match r with
        | 'a' :: 'l' :: 's' :: 'e' :: rest => .ok (.bool false, rest)
        | _ => .error ("Expecting value").data
      else if c = 'n' then
        match r with
        | 'u' :: 'l' :: 'l' :: rest => .ok (.null, rest)
        | _ => .error ("Expecting value").data
      else
        match parseNum (c :: r) with
        | some (v, rest) => .ok (v, rest)
        | none => .error ("Expecting value").data

/-- Parse an object after its opening brace. -/
def parseObjStart : Nat → List Char → Except (List Char) (PyVal × List Char)
  | 0, _ => .error ("input too deep").data
  | f + 1, s =>
    match skipWs s with
    | c :: r =>
      if c = rbrace then .ok (.dict [], r)
      else parseMembers f (c :: r) []
    | [] => .error ("Expecting property name").data

/-- Parse the members of an object (cursor at a key). -/
def parseMembers : Nat → List Char → List (List Char × PyVal) →
    Except (List Char) (PyVal × List Char)
  | 0, _, _ => .error ("input too deep").data
  | f + 1, s, acc =>
    match skipWs s with
    | c :: r =>
      if c = qmark then
        match parseStrBody f r with
        | some (key, r2) =>
          match skipWs r2 with
          | c2 :: r3 =>
            if c2 = ':' then
              match parseVal f r3 with
              | .ok (v, r4) =>
                match skipWs r4 with
                | c3 :: r5 =>
                  if c3 = ',' then parseMembers f r5 (acc ++ [(key, v)])
                  else if c3 = rbrace then .ok (.dict (acc ++ [(key, v)]), r5)
                  else .error ("Expecting delimiter").data
                | [] => .error ("Expecting delimiter").data
              | .error e => .error e
            else .error ("Expecting colon delimiter").data
          | [] => .error ("Expecting colon delimiter").data
        | none => .error ("Unterminated string").data
      else .error ("Expecting property name").data
    | [] => .error ("Expecting property name").data

/-- Parse an array after its opening bracket. -/
def parseArrStart : Nat → List Char → Except (List Char) (PyVal × List Char)
  | 0, _ => .error ("input too deep").data
  | f + 1, s =>
    match skipWs s with
    | c :: r =>
      if c = ']' then .ok (.list [], r)
      else parseItems f (c :: r) []
    | [] => .error ("Expecting value").data

/-- Parse the items of an array (cursor at a value). -/
def parseItems : Nat → List Char → List PyVal → Except (List Char) (PyVal × List Char)
  | 0, _, _ => .error ("input too deep").data
  | f + 1, s, acc =>
    match parseVal f s with
    | .ok (v, r) =>
      match skipWs r with
      | c :: r2 =>
        if c = ',' then parseItems f r2 (acc ++ [v])
        else if c = ']' then .ok (.list (acc ++ [v]), r2)
        else .error ("Expecting delimiter").data
      | [] => .error ("Expecting delimiter").data
    | .error e => .error e

end

/-- Model of `json.loads`: `.ok` with the parsed value, or `.error` with
the message of the `json.JSONDecodeError` the call raises. -/
def jsonLoads (s : List Char) : Except (List Char) PyVal :=
  match parseVal (4 * s.length + 16) s with
  | .ok (v, rest) => if skipWs rest = [] then .ok v else .error ("Extra data").data
  | .error e => .error e

/-! ### Python string helpers used by the Extractor -/

/-- `str.find` for a single character: index of the first occurrence or `-1`. -/
def pyFind (s : List Char) (c : Char) : Int :=
  match s with
  | [] => -1
  | x :: r =>
    if x = c then 0
    else if pyFind r c = -1 then -1 else pyFind r c + 1

/-- `str.rfind` for a single character: index of the last occurrence or `-1`. -/
def pyRfind (s : List Char) (c : Char) : Int :=
  let k := pyFind s.reverse c
  if k = -1 then -1 else (Int.ofNat s.length) - 1 - k

/-- Python slicing `s[a:b]` for the non-negative indices used here. -/
def pySliceNN (s : List Char) (a b : Int) : List Char :=
  (s.drop a.toNat).take (b - a).toNat

/-- `str.lower` (the source only ever feeds it ASCII-relevant tests). -/
def pyLower (s : List Char) : List Char := s.map Char.toLower

/-- Python's substring test `sub in hay`. -/
def containsSub (hay sub : List Char) : Bool :=
  (List.range (hay.length + 1)).any (fun i => sub.isPrefixOf (hay.drop i))

/-! ### The Extractor
(`extract_patient_data_with_claude_pdf_support`, handler.py lines 7-252) -/

/-- One outbound `bedrock.converse` call as the source builds it: model id,
the text part of the user message, the declared document name, and the
inference configuration (`temperature 0.1` is kept as tenths). -/
structure ConverseRequest where
  modelId : List Char
  promptText : List Char
  docName : List Char
  maxTokens : Nat
  temperatureTenths : Nat
deriving DecidableEq

/-- The model id used by every call. -/
def modelIdStr : List Char := ("anthropic.claude-3-5-sonnet-20241022-v2:0").data

/-- The simplified prompt used for PDF 1.3 documents (line 68). -/
def prompt13 : List Char :=
  ("Please analyze this PDF document and extract patient information. Look for names and dates. Respond with JSON: \x7b\"debugInfo\": \"what you can see\", \"firstName\": \"\", \"lastName\": \"\", \"dateOfBirth\": \"\"\x7d").data

/-- The standard prompt used for every other PDF (lines 87-111). -/
def promptStd : List Char :=
  ("You are a medical document analysis AI specialized in extracting patient information from healthcare documents.\n\nIMPORTANT: First, please explain what you can see in the document. Describe the content, structure, and any information you can read. This will help us understand if the PDF is being processed correctly.\n\nThen, extract the following patient information and respond with a JSON object containing:\n\nRequired JSON structure:\n\x7b\n    \"debugInfo\": \"Brief description of what you can see in the document\",\n    \"firstName\": \"extracted first name or empty string if not found\",\n    \"lastName\": \"extracted last name or empty string if not found\", \n    \"dateOfBirth\": \"extracted date of birth in YYYY-MM-DD format or empty string if not found\"\n\x7d\n\nEXTRACTION RULES:\n- firstName: Look for \"First Name\", \"Given Name\", \"Patient Name\", \"Name\" fields, or any clear first name indicators\n- lastName: Look for \"Last Name\", \"Surname\", \"Family Name\" fields, or the second part of full names\n- dateOfBirth: Look for \"Date of Birth\", \"DOB\", \"Birth Date\", \"Born\" fields in various date formats\n- Convert all dates to YYYY-MM-DD format (e.g., 01/15/1990 → 1990-01-15, Jan 15, 1990 → 1990-01-15)\n- Be thorough in your search through the entire document\n- If you cannot find any of these fields, use an empty string for that field\n- Look for variations in field names and formats\n- Consider both structured forms and unstructured text\n\nPlease analyze the document and respond with the JSON object.").data

/-- First alternative prompt of the retry list (line 158). -/
def promptAlt1 : List Char :=
  ("Extract patient information from this PDF. Look for names and dates. Respond with JSON: \x7b\"debugInfo\": \"description\", \"firstName\": \"\", \"lastName\": \"\", \"dateOfBirth\": \"\"\x7d").data

/-- Second alternative prompt of the retry list (line 178). -/
def promptAlt2 : List Char :=
  ("Analyze this PDF and extract patient data. Respond with JSON: \x7b\"debugInfo\": \"what you see\", \"firstName\": \"\", \"lastName\": \"\", \"dateOfBirth\": \"\"\x7d").data

/-- The primary request for a PDF 1.3 document. -/
def req13 : ConverseRequest := ⟨modelIdStr, prompt13, ("medicalDocument").data, 2000, 1⟩

/-- The primary request for every other PDF. -/
def reqStd : ConverseRequest := ⟨modelIdStr, promptStd, ("patientDocument").data, 2000, 1⟩

/-- The first alternative-approach request ("Simplified prompt"). -/
def altReq1 : ConverseRequest := ⟨modelIdStr, promptAlt1, ("patientFile").data, 2000, 1⟩

/-- The second alternative-approach request ("Different model"). -/
def altReq2 : ConverseRequest := ⟨modelIdStr, promptAlt2, ("medicalRecord").data, 2000, 1⟩

/-- The oracle modelling the inference capability: the n-th `converse`
call either returns the text of the first content block (`.ok`) or raises
with the given message (`.error`). -/
abbrev InfOracle := Nat → Except (List Char) (List Char)

/-- Does the response text signal an empty document (line 146):
`"empty" in text.lower() or "blank" in text.lower()`? -/
def signalsEmpty (s : List Char) : Bool :=
  containsSub (pyLower s) (("empty").data) || containsSub (pyLower s) (("blank").data)

/-- An all-empty-string PatientRecord dict carrying the given `debugInfo`. -/
def mkRecord (dbg : List Char) : PyVal :=
  .dict [(("debugInfo").data, .str dbg), (("firstName").data, .str []),
         (("lastName").data, .str []), (("dateOfBirth").data, .str [])]

/-- The retry loop over the two alternative approaches (lines 146-219):
given the primary response `r0` that signals an empty document, try the two
alternatives in order (calls 1 and 2 of the oracle), keep the first
response that no longer signals emptiness and stop; a raising or still
empty-signaling attempt leaves `claude_response` unchanged (so on
exhaustion the primary response survives).  Returns the surviving response
and the list of alternative requests issued. -/
def retryLoop (oracle : InfOracle) (r0 : List Char) : List Char × List ConverseRequest :=
  if signalsEmpty r0 then
    match oracle 1 with
    | .ok r1 =>
      if !signalsEmpty r1 then (r1, [altReq1])
      else
        match oracle 2 with
        | .ok r2 => if !signalsEmpty r2 then (r2, [altReq1, altReq2]) else (r0, [altReq1, altReq2])
        | .error _ => (r0, [altReq1, altReq2])
    | .error _ =>
      match oracle 2 with
      | .ok r2 => if !signalsEmpty r2 then (r2, [altReq1, altReq2]) else (r0, [altReq1, altReq2])
      | .error _ => (r0, [altReq1, altReq2])
  else (r0, [])

/-- Locating and parsing the JSON object inside the surviving response
(lines 221-248): first `\x7b`, last `\x7d`, `json.loads` on the slice; a
missing pair or a parse failure yields an error-annotated record, a parse
success is returned as-is. -/
def parseResponse (claude_response : List Char) : PyVal :=
  let json_start := pyFind claude_response lbrace
  let json_end := pyRfind claude_response rbrace + 1
  if json_start == -1 || json_end == 0 then
    mkRecord (("No JSON response from Claude. Response: ").data ++ claude_response.take 200)
  else
    match jsonLoads (pySliceNN claude_response json_start json_end) with
    | .ok v => v
    | .error e =>
      mkRecord ((("JSON parsing error: ").data ++ e) ++ (". Response: ").data ++
        claude_response.take 200)

/-- The five PDF signature bytes `%PDF-`. -/
def pdfSig : List Nat := [37, 80, 68, 70, 45]

/-- The record returned when the decoded bytes lack the PDF signature. -/
def invalidPdfMsg : List Char := ("Invalid PDF file - missing PDF header").data

/-- Prefix of every debugInfo produced by the outer exception handler
(line 252). -/
def bedrockErrMsgStart : List Char := ("Bedrock Claude PDF support error: ").data

/-- The Extractor (`extract_patient_data_with_claude_pdf_support`):
base64-decode the input, check the PDF signature, pick the prompt variant
from the decoded 8-byte header, issue the primary call, run the retry loop,
and parse the surviving response.  Returns the resulting Python value
together with the list of `converse` requests issued; exceptions from the
base64 decode or the primary call land in the outer handler (line 250). -/
def extract (oracle : InfOracle) (pdf_content : List Char) : PyVal × List ConverseRequest :=
  match pyB64Decode pdf_content with
  | .error e => (mkRecord (bedrockErrMsgStart ++ e), [])
  | .ok pdf_bytes =>
    if pdfSig.isPrefixOf pdf_bytes then
      let pdf_version := utf8DecodeIgnore (pdf_bytes.take 8)
      let req1 := if containsSub pdf_version (("1.3").data) then req13 else reqStd
      match oracle 0 with
      | .error e => (mkRecord (bedrockErrMsgStart ++ e), [req1])
      | .ok r0 =>
        let rr := retryLoop oracle r0
        (parseResponse rr.1, req1 :: rr.2)
    else
      (mkRecord invalidPdfMsg, [])

/-! ### The Request Adapter (`handler`, handler.py lines 255-448) -/

/-- The inbound Lambda event, keeping the fields the handler consumes.
`Option` models key presence (`'httpMethod' not in event`). -/
structure Event where
  httpMethod : Option (List Char)
  headers : Option PyVal
  body : Option (List Char)
  isBase64Encoded : Bool

/-- The handler result: an HTTP-shaped response or, for direct (GraphQL)
invocations, the raw result mapping.  The `body` of an HTTP response is
modelled as the mapping handed to `json.dumps` (the OPTIONS branch, which
returns the literal empty string, is modelled as `.str []`). -/
structure HttpResponse where
  statusCode : Nat
  headers : List (List Char × List Char)
  body : PyVal

/-- HTTP-shaped or raw result. -/
inductive HandlerResult where
  | http (r : HttpResponse)
  | raw (v : PyVal)

/-- The header dict of the CORS-preflight (OPTIONS) response
(lines 270-274). -/
def corsHeadersPre : List (List Char × List Char) :=
  [(("Access-Control-Allow-Origin").data, ("*").data),
   (("Access-Control-Allow-Methods").data, ("POST, OPTIONS").data),
   (("Access-Control-Allow-Headers").data, ("Content-Type, Authorization").data)]

/-- The header dict repeated verbatim on every other HTTP response
(e.g. lines 282-287). -/
def corsHeadersFull : List (List Char × List Char) :=
  [(("Content-Type").data, ("application/json").data),
   (("Access-Control-Allow-Origin").data, ("*").data),
   (("Access-Control-Allow-Methods").data, ("POST, OPTIONS, GET").data),
   (("Access-Control-Allow-Headers").data,
    ("Content-Type, X-Amz-Date, Authorization, X-Api-Key, X-Amz-Security-Token").data)]

/-- A `\x7b success: False, error: msg \x7d` body. -/
def errDict (msg : List Char) : PyVal :=
  .dict [(("success").data, .bool false), (("error").data, .str msg)]

/-- An HTTP error response with the full CORS header set. -/
def httpErr (code : Nat) (msg : List Char) : HandlerResult :=
  .http ⟨code, corsHeadersFull, errDict msg⟩

/-- The message of the `AttributeError` raised by `x.get(...)` on a
non-dict value. -/
def attrGetMsg (t : List Char) : List Char :=
  (([squote] ++ t ++ [squote]) ++ (" object has no attribute ").data) ++
    ([squote] ++ ("get").data ++ [squote])

/-- The top-level exception handler (lines 426-448): wrap the message and
shape the failure for HTTP or direct mode. -/
def internalError (event : Event) (m : List Char) : HandlerResult :=
  let er := errDict (("Internal server error: ").data ++ m)
  match event.httpMethod with
  | none => .raw er
  | some _ => .http ⟨500, corsHeadersFull, er⟩

/-- Decoding of a base64-encoded request body (lines 312-314):
`base64.b64decode(body).decode('utf-8')`. -/
def decodeBodyB64 (body : List Char) : Except (List Char) (List Char) :=
  (pyB64Decode body).bind utf8DecodeStrict

/-- The Lambda handler (lines 255-448).  `context` is the optional
`aws_request_id` correlation token.  Python exceptions are explicit: the
only raising operations inside the guarded region are the body decode
(caught locally, line 315), `json.loads` (caught locally, line 333), and
the `.get` attribute lookups on non-dict values, which fall through to the
top-level handler. -/
def handler (oracle : InfOracle) (event : Event) (context : Option (List Char)) :
    HandlerResult :=
  let http_method := event.httpMethod.getD []
  if http_method = ("OPTIONS").data then
    .http ⟨200, corsHeadersPre, .str []⟩
  else if http_method ≠ ("POST").data then
    httpErr 405 ("Method not allowed. Only POST requests are supported.").data
  else
    let body0 := event.body.getD []
    if body0 = [] then
      httpErr 400 ("No PDF content provided in request body.").data
    else
      match (if event.isBase64Encoded then decodeBodyB64 body0 else .ok body0) with
      | .error e => httpErr 400 (("Failed to decode request body: ").data ++ e)
      | .ok body =>
        match jsonLoads body with
        | .error e => httpErr 400 (("Invalid JSON in request body: ").data ++ e)
        | .ok request_data =>
          match request_data with
          | .dict kvs =>
            let pdf_content := dictGet kvs (("pdfContent").data) (.str [])
            if !pyTruthy pdf_content then
              httpErr 400 ("No PDF content found in request. Expected \"pdfContent\" field.").data
            else
              match pdf_content with
              | .str s =>
                let res := extract oracle s
                match res.1 with
                | .dict pkvs =>
                  let processing_result : PyVal := .dict
                    [(("success").data, .bool true),
                     (("message").data, .str ("PDF received and processed successfully").data),
                     (("contentLength").data, .num (Int.ofNat s.length)),
                     (("timestamp").data, .str (context.getD ("unknown").data)),
                     (("debugInfo").data,
                      dictGet pkvs (("debugInfo").data) (.str ("No debug info available").data)),
                     (("patientData").data, .dict pkvs)]
                  match event.httpMethod with
                  | none => .raw processing_result
                  | some _ => .http ⟨200, corsHeadersFull, processing_result⟩
                | other => internalError event (attrGetMsg (pyTypeName other))
              | _ => httpErr 400 ("PDF content must be a string.").data
          | other => internalError event (attrGetMsg (pyTypeName other))

/-! ### Observation helpers and spec-side definitions -/

/-- Headers of an HTTP-shaped result (`none` for a raw result). -/
def headersOf : HandlerResult → Option (List (List Char × List Char))
  | .http r => some r.headers
  | .raw _ => none

/-- The first `converse` request the Extractor issues for the given input,
if any. -/
def firstReq (oracle : InfOracle) (pdf_content : List Char) : Option ConverseRequest :=
  ((extract oracle pdf_content).2).head?

/-- The four PatientRecord keys, in the order of the data model. -/
def patientKeys : List (List Char) :=
  [("debugInfo").data, ("firstName").data, ("lastName").data, ("dateOfBirth").data]

/-- Spec-side definition, following the specification words rather than
the source: a value is PatientRecord-shaped when it is a mapping whose
keys are exactly the four PatientRecord fields (used to compare the
Extractor's actual output against the shape the spec promises). -/
def specPatientRecordShaped (v : PyVal) : Bool :=
  match v with
  | .dict kvs =>
    patientKeys.all (fun k => kvs.any (fun kv => kv.1 == k)) &&
      kvs.all (fun kv => patientKeys.any (fun k => kv.1 == k))
  | _ => false

/-! ### Concrete inputs used by witnesses and counterexamples -/

/-- Base64 of the bytes `%PDF-1.4\n`. -/
def pdf14B64 : List Char := ("JVBERi0xLjQK").data

/-- Base64 of the bytes `%PDF-1.3\n`. -/
def pdf13B64 : List Char := ("JVBERi0xLjMK").data

/-- The bytes `%PDF-1.4\n`. -/
def pdf14Bytes : List Nat := [37, 80, 68, 70, 45, 49, 46, 52, 10]

/-- The 8 header bytes `%PDF-1.3`. -/
def pdf13Header : List Nat := [37, 80, 68, 70, 45, 49, 46, 51]

/-- The 8 header bytes `%PDF-1.4`. -/
def pdf14Header : List Nat := [37, 80, 68, 70, 45, 49, 46, 52]

/-- Base64 of the non-PDF bytes `hello`. -/
def helloB64 : List Char := ("aGVsbG8=").data

/-- The bytes `hello`. -/
def helloBytes : List Nat := [104, 101, 108, 108, 111]

/-- A well-formed full-record inference response. -/
def goodJsonResp : List Char :=
  ("\x7b\"debugInfo\": \"ok\", \"firstName\": \"Jane\", \"lastName\": \"Doe\", \"dateOfBirth\": \"1990-01-15\"\x7d").data

/-- The record `goodJsonResp` parses to. -/
def goodRecord : PyVal :=
  .dict [(("debugInfo").data, .str ("ok").data), (("firstName").data, .str ("Jane").data),
         (("lastName").data, .str ("Doe").data), (("dateOfBirth").data, .str ("1990-01-15").data)]

/-- An oracle whose every response is `goodJsonResp`. -/
def oracleGood : InfOracle := fun _ => .ok goodJsonResp

/-- First response of the all-empty retry scenario. -/
def c2resp0 : List Char := ("the document is empty zero").data

/-- Second response of the all-empty retry scenario. -/
def c2resp1 : List Char := ("the document is empty one").data

/-- Third (last) response of the all-empty retry scenario. -/
def c2resp2 : List Char := ("the document is empty two").data

/-- Oracle for the all-empty retry scenario: three distinct responses, all
signaling an empty document. -/
def oracleC2 : InfOracle :=
  fun n => if n = 0 then .ok c2resp0 else if n = 1 then .ok c2resp1 else .ok c2resp2

/-- A response that does not signal emptiness and has no braces. -/
def c2okResp : List Char := ("all good here").data

/-- Oracle whose first retry (call 1) stops signaling emptiness. -/
def oracleC2w : InfOracle := fun n => if n = 1 then .ok c2okResp else .ok c2resp0

/-- A parse-success response carrying one expected and one surplus key. -/
def c3surplusResp : List Char := ("\x7b\"firstName\": \"Jane\", \"foo\": \"bar\"\x7d").data

/-- Oracle returning `c3surplusResp`. -/
def oracleC3 : InfOracle := fun _ => .ok c3surplusResp

/-- A parse-success response with a single key outside the record shape. -/
def c7resp : List Char := ("\x7b\"surplus\": \"v\"\x7d").data

/-- Oracle returning `c7resp`. -/
def oracleC7 : InfOracle := fun _ => .ok c7resp

/-- Oracle whose every call raises with message `boom`. -/
def oracleC7w : InfOracle := fun _ => .error ("boom").data

/-- A brace-free, non-empty-signaling response. -/
def c8resp : List Char := ("claude says nothing useful").data

/-- Oracle returning `c8resp`. -/
def oracleC8 : InfOracle := fun _ => .ok c8resp

/-- A direct-invocation event: well-formed body, no `httpMethod` key. -/
def evC1 : Event := ⟨none, none, some (("\x7b\"pdfContent\": \"JVBERi0xLjQK\"\x7d").data), false⟩

/-- A CORS-preflight event. -/
def evOptions : Event := ⟨some (("OPTIONS").data), none, none, false⟩

/-- A POST body whose `pdfContent` is a non-empty string that the base64
decoder rejects. -/
def bodyC9 : List Char := ("\x7b\"pdfContent\": \"abc\"\x7d").data

/-- POST event carrying `bodyC9`. -/
def evC9 : Event := ⟨some (("POST").data), none, some bodyC9, false⟩

/-- A POST body that is valid JSON but not a JSON object. -/
def bodyC10 : List Char := ("[]").data

/-- POST event carrying `bodyC10`. -/
def evC10 : Event := ⟨some (("POST").data), none, some bodyC10, false⟩

/-- A GET event (neither preflight nor POST). -/
def evGet : Event := ⟨some (("GET").data), none, none, false⟩

/-! ### Helper lemmas -/

/-- A successful Boolean prefix test yields an append decomposition. -/
theorem isPrefixOf_exists : ∀ (p l : List Nat), p.isPrefixOf l = true → ∃ t, l = p ++ t := by
  intro p
  induction p with
  | nil => intro l _; exact ⟨l, rfl⟩
  | cons a p ih =>
    intro l h
    cases l with
    | nil => simp [List.isPrefixOf] at h
    | cons b l =>
      simp only [List.isPrefixOf, Bool.and_eq_true, beq_iff_eq] at h
      obtain ⟨hab, hp⟩ := h
      obtain ⟨t, ht⟩ := ih l hp
      exact ⟨t, by rw [hab, ht]; rfl⟩

/-- `pyFind` never returns anything below `-1`. -/
theorem pyFind_ge : ∀ (s : List Char) (c : Char), -1 ≤ pyFind s c := by
  intro s c
  induction s with
  | nil => simp [pyFind]
  | cons x r ih =>
    simp only [pyFind]
    split
    · omega
    · split
      · omega
      · omega

/-- A character that does not occur is not found. -/
theorem pyFind_not_mem : ∀ (s : List Char) (c : Char), c ∉ s → pyFind s c = -1 := by
  intro s c h
  induction s with
  | nil => rfl
  | cons x r ih =>
    simp only [List.mem_cons, not_or] at h
    simp only [pyFind, ih h.2]
    rw [if_neg (fun hx => h.1 hx.symm)]
    simp

/-- A character that does not occur is not found from the right either. -/
theorem pyRfind_not_mem : ∀ (s : List Char) (c : Char), c ∉ s → pyRfind s c = -1 := by
  intro s c h
  have : pyFind s.reverse c = -1 := pyFind_not_mem _ _ (by simpa using h)
  simp [pyRfind, this]

/-- Dropping up to a successful `pyFind` lands on the sought character. -/
theorem pyFind_drop : ∀ (s : List Char) (c : Char), pyFind s c ≠ -1 →
    ∃ t, s.drop (pyFind s c).toNat = c :: t := by
  intro s c h
  induction s with
  | nil => exact absurd rfl h
  | cons x r ih =>
    by_cases hx : x = c
    · refine ⟨r, ?_⟩
      simp [pyFind, hx]
    · by_cases hk : pyFind r c = -1
      · exact absurd (by simp [pyFind, hx, hk]) h
      · have hge := pyFind_ge r c
        have hfx : pyFind (x :: r) c = pyFind r c + 1 := by simp [pyFind, hx, hk]
        have htn : (pyFind r c + 1).toNat = (pyFind r c).toNat + 1 := by omega
        obtain ⟨t, ht⟩ := ih hk
        refine ⟨t, ?_⟩
        rw [hfx, htn]
        simpa using ht

/-- `json.loads` on the empty string fails. -/
theorem jsonLoads_nil : jsonLoads [] = .error (("Expecting value").data) := rfl

/-- Any value `parseMembers` succeeds with is a dict. -/
theorem parseMembers_dict : ∀ (f : Nat) (s : List Char) (acc : List (List Char × PyVal))
    (v : PyVal) (r : List Char), parseMembers f s acc = .ok (v, r) → isDict v = true := by
  intro f
  induction f with
  | zero => intro s acc v r h; simp [parseMembers] at h
  | succ f ih =>
    intro s acc v r h
    rw [parseMembers] at h
    repeat' split at h
    all_goals
      first
      | exact Except.noConfusion h
      | (injection h with h2; injection h2 with h3 h4; rw [← h3]; rfl)
      | exact ih _ _ _ _ h

/-- Any value `parseObjStart` succeeds with is a dict. -/
theorem parseObjStart_dict : ∀ (f : Nat) (s : List Char) (v : PyVal) (r : List Char),
    parseObjStart f s = .ok (v, r) → isDict v = true := by
  intro f s v r h
  cases f with
  | zero => simp [parseObjStart] at h
  | succ f =>
    rw [parseObjStart] at h
    repeat' split at h
    all_goals
      first
      | exact Except.noConfusion h
      | (injection h with h2; injection h2 with h3 h4; rw [← h3]; rfl)
      | exact parseMembers_dict _ _ _ _ _ h

/-- `json.loads` on a text whose first character is `\x7b` only ever
succeeds with a dict. -/
theorem jsonLoads_lbrace_dict : ∀ (t : List Char) (v : PyVal),
    jsonLoads (lbrace :: t) = .ok v → isDict v = true := by
  intro t v h
  rw [jsonLoads] at h
  rw [show parseVal (4 * (lbrace :: t).length + 16) (lbrace :: t)
      = parseObjStart (4 * (lbrace :: t).length + 15) t from rfl] at h
  cases hobj : parseObjStart (4 * (lbrace :: t).length + 15) t with
  | error e => rw [hobj] at h; simp at h
  | ok p =>
    rw [hobj] at h
    obtain ⟨w, rest⟩ := p
    have hd := parseObjStart_dict _ _ _ _ hobj
    have h2 : (if skipWs rest = [] then Except.ok w
        else Except.error (("Extra data").data)) = Except.ok v := h
    split at h2
    · injection h2 with h3
      subst h3
      exact hd
    · exact Except.noConfusion h2

/-- `parseResponse` always produces a dict: the error records are dicts,
and a successful parse of a slice that starts at a `\x7b` is a dict. -/
theorem parseResponse_isDict : ∀ (r : List Char), isDict (parseResponse r) = true := by
  intro r
  rw [parseResponse]
  split
  · rfl
  · rename_i hcond
    cases hok : jsonLoads (pySliceNN r (pyFind r lbrace) (pyRfind r rbrace + 1)) with
    | error e => rfl
    | ok v =>
      show isDict v = true
      have hfind : pyFind r lbrace ≠ -1 := by
        intro heq
        apply hcond
        simp [heq]
      obtain ⟨t, ht⟩ := pyFind_drop r lbrace hfind
      rw [pySliceNN, ht] at hok
      cases hn : (pyRfind r rbrace + 1 - pyFind r lbrace).toNat with
      | zero =>
        rw [hn] at hok
        simp only [List.take_zero] at hok
        rw [jsonLoads_nil] at hok
        simp at hok
      | succ n =>
        rw [hn] at hok
        simp only [List.take_succ_cons] at hok
        exact jsonLoads_lbrace_dict _ _ hok

/-- If `getD []` of an optional string is the method name, the key was
present with that value. -/
theorem getD_eq_some : ∀ (o : Option (List Char)) (m : List Char), m ≠ [] →
    o.getD [] = m → o = some m := by
  intro o m hne h
  cases o with
  | none => exact absurd h.symm hne
  | some x => simp only [Option.getD] at h; rw [h]

/-! ### Claim theorems -/

/-- C1 (code evaluated at the failing condition): for every inbound event
that lacks an `httpMethod` field, the handler returns the HTTP-shaped 405
"Method not allowed" response — the missing key defaults to the empty
string, which fails the `POST` check before the direct-invocation branch
can ever run, so the raw result mapping is never returned on this path. -/
theorem C1_missing_method_405 : ∀ (oracle : InfOracle) (event : Event)
    (context : Option (List Char)), event.httpMethod = none →
    handler oracle event context =
      httpErr 405 (("Method not allowed. Only POST requests are supported.").data) := by
  intro o ev ctx h
  simp only [handler, h]
  rfl

/-- C1 witness: a concrete well-formed direct-invocation event (valid
`pdfContent`, no `httpMethod`) still gets the 405 HTTP envelope. -/
theorem C1_missing_method_405_witness :
    handler oracleGood evC1 none =
      httpErr 405 (("Method not allowed. Only POST requests are supported.").data) :=
  C1_missing_method_405 oracleGood evC1 none rfl

/-- C2 (amended): at most two additional inference calls are made with the
two alternative prompts; the loop is skipped when the primary response does
not signal emptiness; it stops at the first retry whose response no longer
contains the tokens; and when every response the oracle returns signals
emptiness, the response kept for parsing is the FIRST (primary) response,
not the last one received. -/
theorem C2_retry_behaviour :
    (∀ (o : InfOracle) (r0 : List Char), (retryLoop o r0).2.length ≤ 2)
    ∧ (∀ (o : InfOracle) (r0 : List Char), signalsEmpty r0 = false →
        retryLoop o r0 = (r0, []))
    ∧ (∀ (o : InfOracle) (r0 r1 : List Char), signalsEmpty r0 = true → o 1 = .ok r1 →
        signalsEmpty r1 = false → retryLoop o r0 = (r1, [altReq1]))
    ∧ (∀ (o : InfOracle) (r0 : List Char),
        (∀ i r, o i = .ok r → signalsEmpty r = true) → (retryLoop o r0).1 = r0) := by
  refine ⟨?_, ?_, ?_, ?_⟩
  · intro o r0
    simp only [retryLoop]
    repeat' split
    all_goals simp
  · intro o r0 h
    simp [retryLoop, h]
  · intro o r0 r1 h0 h1 h2
    simp [retryLoop, h0, h1, h2]
  · intro o r0 h
    by_cases h0 : signalsEmpty r0
    · cases h1 : o 1 with
      | ok r1 =>
        have e1 := h 1 r1 h1
        cases h2 : o 2 with
        | ok r2 =>
          have e2 := h 2 r2 h2
          simp [retryLoop, h0, h1, h2, e1, e2]
        | error m => simp [retryLoop, h0, h1, h2, e1]
      | error m =>
        cases h2 : o 2 with
        | ok r2 =>
          have e2 := h 2 r2 h2
          simp [retryLoop, h0, h1, h2, e2]
        | error m2 => simp [retryLoop, h0, h1, h2]
    · simp [retryLoop, (by simpa using h0 : signalsEmpty r0 = false)]

/-- C2 witness: the four parts of the retry theorem instantiated at
concrete oracles. -/
theorem C2_retry_behaviour_witness :
    (retryLoop oracleC2 c2resp0).2.length ≤ 2
    ∧ retryLoop oracleGood c2okResp = (c2okResp, [])
    ∧ retryLoop oracleC2w c2resp0 = (c2okResp, [altReq1])
    ∧ (retryLoop oracleC2 c2resp0).1 = c2resp0 := by
  refine ⟨C2_retry_behaviour.1 oracleC2 c2resp0,
    C2_retry_behaviour.2.1 oracleGood c2okResp (by decide),
    C2_retry_behaviour.2.2.1 oracleC2w c2resp0 c2okResp (by decide) rfl (by decide),
    C2_retry_behaviour.2.2.2 oracleC2 c2resp0 ?_⟩
  intro i r h
  simp only [oracleC2] at h
  split at h
  · injection h with h; subst h; decide
  · split at h
    · injection h with h; subst h; decide
    · injection h with h; subst h; decide

/-- C2 counterexample: for an oracle whose three responses all signal
emptiness, the last response received is `c2resp2`, yet the retry loop
keeps — and the Extractor parses — the first response `c2resp0`
(its text is embedded in the returned debugInfo), contradicting the
claim that the last response received is the one parsed. -/
theorem C2_counterexample :
    oracleC2 2 = .ok c2resp2
    ∧ retryLoop oracleC2 c2resp0 = (c2resp0, [altReq1, altReq2])
    ∧ (extract oracleC2 pdf14B64).1
        = mkRecord ((("No JSON response from Claude. Response: ").data) ++ c2resp0)
    ∧ c2resp0 ≠ c2resp2 :=
  ⟨rfl, rfl, rfl, by decide⟩

/-- C4 (amended): the SIMPLIFIED prompt variant is selected exactly when
the decoded 8-byte header contains the substring `1.3`; in particular a
`%PDF-1.3` header selects the SIMPLIFIED variant, while a `%PDF-1.4`
header — although it declares a pre-1.5 version — selects the STANDARD
variant. -/
theorem C4_prompt_selection :
    (∀ (o : InfOracle) (c : List Char) (bytes : List Nat), pyB64Decode c = .ok bytes →
        pdf13Header.isPrefixOf bytes = true → firstReq o c = some req13)
    ∧ (∀ (o : InfOracle) (c : List Char) (bytes : List Nat), pyB64Decode c = .ok bytes →
        pdf14Header.isPrefixOf bytes = true → firstReq o c = some reqStd)
    ∧ (∀ (o : InfOracle) (c : List Char) (bytes : List Nat), pyB64Decode c = .ok bytes →
        pdfSig.isPrefixOf bytes = true →
        (firstReq o c = some req13 ↔
          containsSub (utf8DecodeIgnore (bytes.take 8)) (("1.3").data) = true)) := by
  refine ⟨?_, ?_, ?_⟩
  · intro o c bytes h1 h13
    obtain ⟨t, rfl⟩ := isPrefixOf_exists _ _ h13
    have hsig : pdfSig.isPrefixOf (pdf13Header ++ t) = true := rfl
    have hv : containsSub (utf8DecodeIgnore ((pdf13Header ++ t).take 8)) (("1.3").data)
        = true := by
      rw [show (pdf13Header ++ t).take 8 = pdf13Header from rfl]
      rfl
    cases ho : o 0 with
    | error e => simp [firstReq, extract, h1, hsig, hv, ho]
    | ok r0 => simp [firstReq, extract, h1, hsig, hv, ho]
  · intro o c bytes h1 h14
    obtain ⟨t, rfl⟩ := isPrefixOf_exists _ _ h14
    have hsig : pdfSig.isPrefixOf (pdf14Header ++ t) = true := rfl
    have hv : containsSub (utf8DecodeIgnore ((pdf14Header ++ t).take 8)) (("1.3").data)
        = false := by
      rw [show (pdf14Header ++ t).take 8 = pdf14Header from rfl]
      rfl
    cases ho : o 0 with
    | error e => simp [firstReq, extract, h1, hsig, hv, ho]
    | ok r0 => simp [firstReq, extract, h1, hsig, hv, ho]
  · intro o c bytes h1 hsig
    have hne : ¬ (reqStd = req13) := by decide
    cases hcs : containsSub (utf8DecodeIgnore (bytes.take 8)) (("1.3").data) with
    | true => cases ho : o 0 <;> simp [firstReq, extract, h1, hsig, hcs, ho]
    | false => cases ho : o 0 <;> simp [firstReq, extract, h1, hsig, hcs, ho, hne]

/-- C4 witness: the three parts at concrete inputs — a `%PDF-1.3` file
gets the simplified prompt, a `%PDF-1.4` file the standard one. -/
theorem C4_prompt_selection_witness :
    firstReq oracleGood pdf13B64 = some req13
    ∧ firstReq oracleGood pdf14B64 = some reqStd
    ∧ (firstReq oracleGood pdf14B64 = some req13 ↔
        containsSub (utf8DecodeIgnore (pdf14Bytes.take 8)) (("1.3").data) = true) :=
  ⟨C4_prompt_selection.1 oracleGood pdf13B64 [37, 80, 68, 70, 45, 49, 46, 51, 10] rfl rfl,
   C4_prompt_selection.2.1 oracleGood pdf14B64 pdf14Bytes rfl rfl,
   C4_prompt_selection.2.2 oracleGood pdf14B64 pdf14Bytes rfl rfl⟩

/-- C4 counterexample: the input is a PDF declaring version 1.4 (older
than 1.5), yet the first request issued carries the STANDARD prompt, not
the SIMPLIFIED one — its document name (and prompt) differ from the
simplified request's. -/
theorem C4_counterexample :
    pyB64Decode pdf14B64 = .ok pdf14Bytes
    ∧ firstReq oracleGood pdf14B64 = some reqStd
    ∧ reqStd.docName ≠ req13.docName :=
  ⟨rfl, rfl, by decide⟩

/-- C6: whenever the decoded bytes do not start with the `%PDF-`
signature, the Extractor returns the record whose debugInfo is exactly
"Invalid PDF file - missing PDF header" with all three patient fields
empty, and issues zero inference requests. -/
theorem C6_invalid_header : ∀ (oracle : InfOracle) (c : List Char) (bytes : List Nat),
    pyB64Decode c = .ok bytes → pdfSig.isPrefixOf bytes = false →
    extract oracle c = (mkRecord invalidPdfMsg, []) ∧
      mkRecord invalidPdfMsg =
        .dict [(("debugInfo").data, .str (("Invalid PDF file - missing PDF header").data)),
               (("firstName").data, .str []), (("lastName").data, .str []),
               (("dateOfBirth").data, .str [])] := by
  intro oracle c bytes h1 h2
  refine ⟨?_, rfl⟩
  simp [extract, h1, h2]

/-- C6 witness: base64 of the bytes `hello` (no PDF signature) yields the
invalid-header record and an empty request list. -/
theorem C6_invalid_header_witness :
    extract oracleGood helloB64 = (mkRecord invalidPdfMsg, []) :=
  (C6_invalid_header oracleGood helloB64 helloBytes rfl rfl).1

/-- C3 (amended): when the inference response parses, the Extractor
returns the parsed JSON object exactly as parsed — no coercion into the
four-field shape happens: missing keys are not defaulted and surplus keys
are kept. -/
theorem C3_parse_passthrough : ∀ (o : InfOracle) (c : List Char) (bytes : List Nat)
    (r0 : List Char) (v : PyVal),
    pyB64Decode c = .ok bytes → pdfSig.isPrefixOf bytes = true →
    o 0 = .ok r0 → signalsEmpty r0 = false →
    ((pyFind r0 lbrace == -1) || (pyRfind r0 rbrace + 1 == 0)) = false →
    jsonLoads (pySliceNN r0 (pyFind r0 lbrace) (pyRfind r0 rbrace + 1)) = .ok v →
    (extract o c).1 = v := by
  intro o c bytes r0 v h1 h2 h3 h4 h5 h6
  have hr : retryLoop o r0 = (r0, []) := by simp [retryLoop, h4]
  simp [extract, h1, h2, h3, hr, parseResponse, h5, h6]

/-- C3 witness: a full-record response parses and is returned verbatim. -/
theorem C3_parse_passthrough_witness : (extract oracleGood pdf14B64).1 = goodRecord :=
  C3_parse_passthrough oracleGood pdf14B64 pdf14Bytes goodJsonResp goodRecord
    rfl rfl rfl (by decide) rfl rfl

/-- C3 counterexample: for a response whose JSON object has the key
`firstName` plus a surplus key `foo`, the Extractor's result keeps `foo`
and has no `lastName`/`dateOfBirth` keys at all — the missing keys do not
appear as empty strings and the surplus key is not dropped. -/
theorem C3_counterexample :
    (extract oracleC3 pdf14B64).1
      = .dict [(("firstName").data, .str ("Jane").data), (("foo").data, .str ("bar").data)]
    ∧ hasKey (extract oracleC3 pdf14B64).1 (("lastName").data) = false
    ∧ hasKey (extract oracleC3 pdf14B64).1 (("foo").data) = true :=
  ⟨rfl, rfl, rfl⟩

/-- C7 (amended): for every input and every oracle behaviour the Extractor
returns a mapping (a Python dict) and never lets an exception escape; when
the primary inference call raises with message `m`, the result is the
all-empty record whose debugInfo is
`"Bedrock Claude PDF support error: " ++ m`.  (On a successful parse the
mapping is the parsed object itself, which need not carry the four
PatientRecord fields — see the counterexample.) -/
theorem C7_never_raises :
    (∀ (o : InfOracle) (c : List Char), isDict (extract o c).1 = true)
    ∧ (∀ (o : InfOracle) (c : List Char) (bytes : List Nat) (m : List Char),
        pyB64Decode c = .ok bytes → pdfSig.isPrefixOf bytes = true → o 0 = .error m →
        (extract o c).1 = mkRecord (bedrockErrMsgStart ++ m)) := by
  constructor
  · intro o c
    cases h1 : pyB64Decode c with
    | error e => simp [extract, h1, mkRecord, isDict]
    | ok bytes =>
      cases h2 : pdfSig.isPrefixOf bytes with
      | false => simp [extract, h1, h2, mkRecord, isDict]
      | true =>
        cases h3 : o 0 with
        | error m => simp [extract, h1, h2, h3, mkRecord, isDict]
        | ok r0 =>
          have hp := parseResponse_isDict ((retryLoop o r0).1)
          simp [extract, h1, h2, h3, hp]
  · intro o c bytes m h1 h2 h3
    simp [extract, h1, h2, h3]

/-- C7 witness: with an oracle that always raises (`boom`), the result is
still a dict, namely the error-annotated empty record. -/
theorem C7_never_raises_witness :
    isDict (extract oracleC7w pdf14B64).1 = true
    ∧ (extract oracleC7w pdf14B64).1 = mkRecord (bedrockErrMsgStart ++ ("boom").data) :=
  ⟨C7_never_raises.1 oracleC7w pdf14B64,
   C7_never_raises.2 oracleC7w pdf14B64 pdf14Bytes (("boom").data) rfl rfl rfl⟩

/-- C7 counterexample: a parse-success response with the single key
`surplus` makes the Extractor return a mapping that is not
PatientRecord-shaped (no `firstName` key at all), refuting the claim that
the returned mapping is always PatientRecord-shaped. -/
theorem C7_counterexample :
    specPatientRecordShaped (extract oracleC7 pdf14B64).1 = false
    ∧ (extract oracleC7 pdf14B64).1 = .dict [(("surplus").data, .str ("v").data)]
    ∧ hasKey (extract oracleC7 pdf14B64).1 (("firstName").data) = false :=
  ⟨rfl, rfl, rfl⟩

/-- C8: when the response text contains no opening or no closing brace,
the parse step returns the all-empty record whose debugInfo is the literal
prefix "No JSON response from Claude" followed by the first 200 characters
of the raw response; and (link) for a non-empty-signaling primary response
the Extractor's result is exactly that parse step applied to it. -/
theorem C8_no_json_found :
    (∀ (r : List Char), lbrace ∉ r ∨ rbrace ∉ r →
        parseResponse r =
          mkRecord ((("No JSON response from Claude. Response: ").data) ++ r.take 200))
    ∧ (∀ (o : InfOracle) (c : List Char) (bytes : List Nat) (r0 : List Char),
        pyB64Decode c = .ok bytes → pdfSig.isPrefixOf bytes = true → o 0 = .ok r0 →
        signalsEmpty r0 = false → (extract o c).1 = parseResponse r0) := by
  constructor
  · intro r h
    have hc : ((pyFind r lbrace == -1) || (pyRfind r rbrace + 1 == 0)) = true := by
      cases h with
      | inl h =>
        rw [pyFind_not_mem r lbrace h]
        simp
      | inr h =>
        rw [pyRfind_not_mem r rbrace h]
        simp
    simp [parseResponse, hc]
  · intro o c bytes r0 h1 h2 h3 h4
    have hr : retryLoop o r0 = (r0, []) := by simp [retryLoop, h4]
    simp [extract, h1, h2, h3, hr]

/-- C8 witness: a brace-free response produces the "No JSON response from
Claude" record, and the Extractor returns exactly that for a concrete
valid PDF input. -/
theorem C8_no_json_found_witness :
    parseResponse c8resp
      = mkRecord ((("No JSON response from Claude. Response: ").data) ++ c8resp.take 200)
    ∧ (extract oracleC8 pdf14B64).1 = parseResponse c8resp :=
  ⟨C8_no_json_found.1 c8resp (Or.inl (by decide)),
   C8_no_json_found.2 oracleC8 pdf14B64 pdf14Bytes c8resp rfl rfl rfl (by decide)⟩

/-- The top-level exception shaping keeps the full CORS header set in HTTP
mode and produces no headers in raw mode. -/
theorem headersOf_internalError : ∀ (ev : Event) (m : List Char),
    headersOf (internalError ev m) = some corsHeadersFull
    ∨ headersOf (internalError ev m) = none := by
  intro ev m
  rcases hm : ev.httpMethod with _ | x <;> simp [internalError, hm, headersOf]

/-- Every HTTP-shaped result of the handler other than the preflight
response carries the full CORS header dict. -/
theorem handler_headers_shape : ∀ (o : InfOracle) (ev : Event) (ctx : Option (List Char)),
    ev.httpMethod ≠ some (("OPTIONS").data) →
    headersOf (handler o ev ctx) = some corsHeadersFull
    ∨ headersOf (handler o ev ctx) = none := by
  intro o ev ctx hne
  simp only [handler]
  repeat' split
  all_goals
    first
    | exact absurd (getD_eq_some _ _ (by decide) (by assumption)) hne
    | (left; rfl)
    | (right; rfl)
    | exact headersOf_internalError _ _

/-- C5 (amended): the OPTIONS preflight response carries its own reduced
header dict (origin `*`, methods `POST, OPTIONS`, headers
`Content-Type, Authorization`), while every other HTTP-shaped handler
response — the 4xx validation errors, the 200 success and the 500
catch-all — carries the identical full CORS header dict (origin `*`,
methods `POST, OPTIONS, GET`, headers
`Content-Type, X-Amz-Date, Authorization, X-Api-Key,
X-Amz-Security-Token`). -/
theorem C5_cors_headers : ∀ (o : InfOracle) (ev : Event) (ctx : Option (List Char)),
    (ev.httpMethod = some (("OPTIONS").data) →
      handler o ev ctx = .http ⟨200, corsHeadersPre, .str []⟩)
    ∧ (ev.httpMethod ≠ some (("OPTIONS").data) →
      ∀ (r : HttpResponse), handler o ev ctx = .http r → r.headers = corsHeadersFull) := by
  intro o ev ctx
  constructor
  · intro h
    simp only [handler, h]
    rfl
  · intro hne r hr
    rcases handler_headers_shape o ev ctx hne with h | h
    · rw [hr] at h
      simpa [headersOf] using h
    · rw [hr] at h
      simp [headersOf] at h

/-- C5 witness: the preflight case at the concrete OPTIONS event, and the
non-preflight case at a concrete GET event whose 405 response carries the
full header dict. -/
theorem C5_cors_headers_witness :
    handler oracleGood evOptions none = .http ⟨200, corsHeadersPre, .str []⟩
    ∧ HttpResponse.headers ⟨405, corsHeadersFull,
        errDict (("Method not allowed. Only POST requests are supported.").data)⟩
      = corsHeadersFull :=
  ⟨(C5_cors_headers oracleGood evOptions none).1 rfl,
   (C5_cors_headers oracleGood evGet none).2 (by decide)
     ⟨405, corsHeadersFull,
      errDict (("Method not allowed. Only POST requests are supported.").data)⟩ rfl⟩

/-- C5 counterexample: the OPTIONS preflight response does NOT carry the
same headers as the other responses — its allow-methods value is
`POST, OPTIONS`, which does not cover `GET`, refuting the claim that every
response (including preflight) carries the same fixed CORS headers. -/
theorem C5_counterexample :
    handler oracleGood evOptions none = .http ⟨200, corsHeadersPre, .str []⟩
    ∧ corsHeadersPre ≠ corsHeadersFull
    ∧ (corsHeadersPre.find?
        (fun kv => kv.1 == ("Access-Control-Allow-Methods").data)).map Prod.snd
      = some (("POST, OPTIONS").data)
    ∧ containsSub (("POST, OPTIONS").data) (("GET").data) = false :=
  ⟨rfl, by decide, rfl, by decide⟩

/-- C9: a validated POST envelope whose non-empty `pdfContent` string
makes the base64 decoder raise is answered with a 200 response whose body
has `success = True` and whose `patientData` is the all-empty record with
debugInfo `"Bedrock Claude PDF support error: " ++ message` — the decode
error is absorbed inside the Extractor and never surfaces as a 4xx/5xx. -/
theorem C9_bad_base64_soft : ∀ (o : InfOracle) (ev : Event) (ctx : Option (List Char))
    (b : List Char) (kvs : List (List Char × PyVal)) (s m : List Char),
    ev.httpMethod = some (("POST").data) → ev.body = some b → b ≠ [] →
    ev.isBase64Encoded = false → jsonLoads b = .ok (.dict kvs) →
    dictGet kvs (("pdfContent").data) (.str []) = .str s → s ≠ [] →
    pyB64Decode s = .error m →
    handler o ev ctx = .http ⟨200, corsHeadersFull,
      .dict [(("success").data, .bool true),
             (("message").data, .str ("PDF received and processed successfully").data),
             (("contentLength").data, .num (Int.ofNat s.length)),
             (("timestamp").data, .str (ctx.getD (("unknown").data))),
             (("debugInfo").data, .str (bedrockErrMsgStart ++ m)),
             (("patientData").data, mkRecord (bedrockErrMsgStart ++ m))]⟩ := by
  intro o ev ctx b kvs s m hm hb hbne h64 hj hget hs hdec
  have e1 : ((("POST").data : List Char) = ("OPTIONS").data) = False := eq_false (by decide)
  have hsE : s.isEmpty = false := by
    cases s with
    | nil => exact absurd rfl hs
    | cons x t => rfl
  have hex : extract o s = (mkRecord (bedrockErrMsgStart ++ m), []) := by
    simp [extract, hdec]
  have hdg : dictGet [(("debugInfo").data, PyVal.str (bedrockErrMsgStart ++ m)),
      (("firstName").data, .str []), (("lastName").data, .str []),
      (("dateOfBirth").data, .str [])] (("debugInfo").data)
      (.str ("No debug info available").data) = .str (bedrockErrMsgStart ++ m) := rfl
  simp [handler, hm, hb, hbne, h64, hj, hget, hex, pyTruthy, hsE, mkRecord, hdg, e1]

/-- C9 witness: the concrete POST event whose `pdfContent` is `"abc"`
(rejected by the base64 decoder) gets the 200 soft-failure response. -/
theorem C9_bad_base64_soft_witness :
    handler oracleGood evC9 none = .http ⟨200, corsHeadersFull,
      .dict [(("success").data, .bool true),
             (("message").data, .str ("PDF received and processed successfully").data),
             (("contentLength").data, .num (Int.ofNat (("abc").data).length)),
             (("timestamp").data, .str ((none : Option (List Char)).getD (("unknown").data))),
             (("debugInfo").data, .str (bedrockErrMsgStart ++ ("Incorrect padding").data)),
             (("patientData").data,
              mkRecord (bedrockErrMsgStart ++ ("Incorrect padding").data))]⟩ :=
  C9_bad_base64_soft oracleGood evC9 none bodyC9
    [(("pdfContent").data, .str ("abc").data)] (("abc").data)
    (("Incorrect padding").data) rfl rfl (by decide) rfl rfl rfl (by decide) rfl

/-- C10: a POST body that is valid JSON but not a JSON object is not
answered with a 400 — the `.get` lookup on the non-dict parsed value
raises `AttributeError`, which only the top-level handler catches, so the
response is the 500 "Internal server error" shape. -/
theorem C10_nonobject_body_500 : ∀ (o : InfOracle) (ev : Event) (ctx : Option (List Char))
    (b : List Char) (v : PyVal),
    ev.httpMethod = some (("POST").data) → ev.body = some b → b ≠ [] →
    ev.isBase64Encoded = false → jsonLoads b = .ok v → isDict v = false →
    handler o ev ctx = .http ⟨500, corsHeadersFull,
      errDict ((("Internal server error: ").data) ++ attrGetMsg (pyTypeName v))⟩ := by
  intro o ev ctx b v hm hb hbne h64 hj hv
  have e1 : ((("POST").data : List Char) = ("OPTIONS").data) = False := eq_false (by decide)
  cases v with
  | dict kvs => simp [isDict] at hv
  | str s => simp [handler, hm, hb, hbne, h64, hj, internalError, e1]
  | num n => simp [handler, hm, hb, hbne, h64, hj, internalError, e1]
  | bool x => simp [handler, hm, hb, hbne, h64, hj, internalError, e1]
  | null => simp [handler, hm, hb, hbne, h64, hj, internalError, e1]
  | list xs => simp [handler, hm, hb, hbne, h64, hj, internalError, e1]

/-- C10 witness: the concrete POST event with body `[]` yields the 500
internal-error response naming the missing `get` attribute on `list`. -/
theorem C10_nonobject_body_500_witness :
    handler oracleGood evC10 none = .http ⟨500, corsHeadersFull,
      errDict ((("Internal server error: ").data) ++ attrGetMsg (pyTypeName (.list [])))⟩ :=
  C10_nonobject_body_500 oracleGood evC10 none bodyC10 (.list [])
    rfl rfl (by decide) rfl rfl rfl

end DocExtractor
